import Mathlib

/-!
Verification of the joint-kinematics engine of `src/build123d/joints.py`.

The geometry kernel (vectors, frames/locations, axes, planes) is an external
collaborator of the joints module; it is modelled here from the spec's frame
algebra contract (spec section 4.1): frames are rotation + translation values
with `compose`, `invert` and `relative_to`, axes are origin + direction with a
normality test and a frame with Z aligned to the direction, and vectors support
rotation about an axis by an angle in degrees.

The five joint variants and their `connect_to` operations are translated
statement by statement from `joints.py`.  Python attribute mutation is rendered
by explicit state passing: each `connect_to` takes the calling joint's record,
the calling body's placement, the partner joint and the partner body's
placement, and returns the post-call values of all four together with the
raised exception, if any (mutations performed before a `raise` are kept, as in
Python).
-/

namespace B123D

/-- Modelled from the spec: a 3-component real vector of the external geometry
kernel. -/
structure Vec3 where
  x : ℝ
  y : ℝ
  z : ℝ

/-- Componentwise vector addition. -/
def Vec3.add (a b : Vec3) : Vec3 := ⟨a.x + b.x, a.y + b.y, a.z + b.z⟩

/-- Scalar multiplication of a vector. -/
def Vec3.smul (r : ℝ) (a : Vec3) : Vec3 := ⟨r * a.x, r * a.y, r * a.z⟩

/-- Dot product. -/
def Vec3.dot (a b : Vec3) : ℝ := a.x * b.x + a.y * b.y + a.z * b.z

/-- Cross product. -/
def Vec3.cross (a b : Vec3) : Vec3 :=
  ⟨a.y * b.z - a.z * b.y, a.z * b.x - a.x * b.z, a.x * b.y - a.y * b.x⟩

/-- Componentwise negation. -/
def Vec3.neg (a : Vec3) : Vec3 := ⟨-a.x, -a.y, -a.z⟩

/-- The zero vector. -/
def Vec3.zero : Vec3 := ⟨0, 0, 0⟩

/-- Modelled from the spec: a rotation matrix of the external geometry kernel,
stored by columns. -/
structure Mat3 where
  c1 : Vec3
  c2 : Vec3
  c3 : Vec3

/-- Matrix-vector product (the columns are the images of the basis vectors). -/
def Mat3.mulVec (m : Mat3) (v : Vec3) : Vec3 :=
  (Vec3.smul v.x m.c1).add ((Vec3.smul v.y m.c2).add (Vec3.smul v.z m.c3))

/-- Matrix product. -/
def Mat3.mul (a b : Mat3) : Mat3 := ⟨a.mulVec b.c1, a.mulVec b.c2, a.mulVec b.c3⟩

/-- The identity matrix. -/
def Mat3.one : Mat3 := ⟨⟨1, 0, 0⟩, ⟨0, 1, 0⟩, ⟨0, 0, 1⟩⟩

/-- Matrix transpose. -/
def Mat3.transpose (m : Mat3) : Mat3 :=
  ⟨⟨m.c1.x, m.c2.x, m.c3.x⟩, ⟨m.c1.y, m.c2.y, m.c3.y⟩, ⟨m.c1.z, m.c2.z, m.c3.z⟩⟩

/-- Modelled from the spec: a frame ("Location"): rotation + translation, a pure
value. -/
structure Loc where
  rot : Mat3
  trans : Vec3

/-- Frame composition, `a * b` in the source. -/
def Loc.comp (a b : Loc) : Loc :=
  ⟨a.rot.mul b.rot, (a.rot.mulVec b.trans).add a.trans⟩

/-- The identity frame, `Location()` in the source. -/
def Loc.one : Loc := ⟨Mat3.one, Vec3.zero⟩

/-- Modelled from the spec: frame inversion of a rigid transform (the rotation
part is orthogonal, so its inverse is its transpose). -/
def Loc.inverse (a : Loc) : Loc :=
  ⟨a.rot.transpose, (a.rot.transpose.mulVec a.trans).neg⟩

/-- Modelled from the spec: `relative_to(a, ref) = compose(invert(ref), a)`. -/
def Loc.relative_to (a ref : Loc) : Loc := ref.inverse.comp a

/-- Apply a frame to a point. -/
def Loc.apply (l : Loc) (p : Vec3) : Vec3 := (l.rot.mulVec p).add l.trans

/-- A pure translation frame, `Location(vector)` in the source. -/
def Loc.translation (v : Vec3) : Loc := ⟨Mat3.one, v⟩

/-- Cosine of an angle given in degrees. -/
noncomputable def cosd (t : ℝ) : ℝ := Real.cos (t * Real.pi / 180)

/-- Sine of an angle given in degrees. -/
noncomputable def sind (t : ℝ) : ℝ := Real.sin (t * Real.pi / 180)

/-- Modelled from the spec: rotation of a vector about an axis direction by an
angle in degrees (Rodrigues formula, `Vector.rotate` of the kernel). -/
noncomputable def Vec3.rotate (v d : Vec3) (t : ℝ) : Vec3 :=
  (Vec3.smul (cosd t) v).add
    ((Vec3.smul (sind t) (d.cross v)).add
      (Vec3.smul ((1 - cosd t) * (d.dot v)) d))

/-- Modelled from the spec: an axis is an origin point plus a direction. -/
structure Axis3 where
  position : Vec3
  direction : Vec3

/-- Modelled from the spec: `Axis.located(loc)` re-expresses the axis through
the given frame (used with the inverse of the body's placement to store the
axis in the body's local frame). -/
def Axis3.located (a : Axis3) (l : Loc) : Axis3 :=
  ⟨l.apply a.position, l.rot.mulVec a.direction⟩

/-- Modelled from the spec: the in-plane x direction of the normal frame of a
z direction, as the kernel derives it for `Plane(origin, z_dir)`; for the
world Z direction it is the world X direction. -/
noncomputable def xDirOf (zd : Vec3) : Vec3 :=
  if zd.x = 0 ∧ zd.y = 0 then ⟨1, 0, 0⟩
  else Vec3.smul (1 / Real.sqrt (zd.y * zd.y + zd.x * zd.x)) ⟨-zd.y, zd.x, 0⟩

/-- Modelled from the spec: `Plane(origin, x_dir, z_dir).to_location()` — the
frame whose rotation columns are x, z cross x, z and whose translation is the
origin. -/
def planeLoc (origin xd zd : Vec3) : Loc := ⟨⟨xd, zd.cross xd, zd⟩, origin⟩

/-- Modelled from the spec: `Axis.to_location()` — the frame anchored at the
axis origin with Z aligned to the axis direction. -/
noncomputable def Axis3.to_location (a : Axis3) : Loc :=
  planeLoc a.position (xDirOf a.direction) a.direction

/-- Modelled from the spec: a plane, used by `BallJoint` as its angle
reference. -/
structure Plane3 where
  origin : Vec3
  x_dir : Vec3
  z_dir : Vec3

/-- The frame of a plane. -/
def Plane3.to_location (p : Plane3) : Loc := planeLoc p.origin p.x_dir p.z_dir

/-- The world XY plane, `Plane.XY` in the source. -/
def Plane3.XY : Plane3 := ⟨Vec3.zero, ⟨1, 0, 0⟩, ⟨0, 0, 1⟩⟩

/-- Modelled from the spec: intrinsic X-Y-Z rotation by three angles in
degrees, `Rotation(X, Y, Z)` of the kernel ("3 nested rotations"). -/
noncomputable def rotX (t : ℝ) : Mat3 :=
  ⟨⟨1, 0, 0⟩, ⟨0, cosd t, sind t⟩, ⟨0, -sind t, cosd t⟩⟩

/-- Rotation matrix about the Y axis by an angle in degrees. -/
noncomputable def rotY (t : ℝ) : Mat3 :=
  ⟨⟨cosd t, 0, -sind t⟩, ⟨0, 1, 0⟩, ⟨sind t, 0, cosd t⟩⟩

/-- Rotation matrix about the Z axis by an angle in degrees. -/
noncomputable def rotZ (t : ℝ) : Mat3 :=
  ⟨⟨cosd t, sind t, 0⟩, ⟨-sind t, cosd t, 0⟩, ⟨0, 0, 1⟩⟩

/-- Modelled from the spec: `Rotation(x, y, z)` — the frame rotating by the
three angles about X, then Y, then Z (intrinsic), with no translation. -/
noncomputable def Rotation3 (x y z : ℝ) : Loc :=
  ⟨(rotX x).mul ((rotY y).mul (rotZ z)), Vec3.zero⟩

/-- Two-argument arctangent, in radians. -/
noncomputable def atan2 (y x : ℝ) : ℝ :=
  if 0 < x then Real.arctan (y / x)
  else if x < 0 ∧ 0 ≤ y then Real.arctan (y / x) + Real.pi
  else if x < 0 ∧ y < 0 then Real.arctan (y / x) - Real.pi
  else if x = 0 ∧ 0 < y then Real.pi / 2
  else if x = 0 ∧ y < 0 then -(Real.pi / 2)
  else 0

/-- Modelled from the spec: `Location.orientation` — the intrinsic X-Y-Z Euler
angles of the rotation part, in degrees, as decomposed by the kernel. -/
noncomputable def Loc.orientation (l : Loc) : Vec3 :=
  ⟨180 / Real.pi * atan2 (-l.rot.c3.y) l.rot.c3.z,
   180 / Real.pi * Real.arcsin l.rot.c3.x,
   180 / Real.pi * atan2 (-l.rot.c2.x) l.rot.c1.x⟩

/-- The Python exceptions observable from the joints module. -/
inductive PyErr where
  | typeError
  | valueError
  | attributeError
deriving DecidableEq

/-- State of a `RigidJoint` (`joints.py` lines 36-74): the joint frame relative
to the owning body, plus the `connected_to` back-reference (modelled as the
partner joint's id). -/
structure RigidJointRec where
  id : ℕ
  relative_location : Loc
  connected_to : Option ℕ

/-- State of a `RevoluteJoint` (`joints.py` lines 77-165). -/
structure RevoluteJointRec where
  id : ℕ
  range : ℝ × ℝ
  angle_reference : Vec3
  angle : Option ℝ
  relative_axis : Axis3
  connected_to : Option ℕ

/-- State of a `LinearJoint` (`joints.py` lines 168-285).  `position` is `None`
after construction; `angle` is the attribute `connect_to` adds dynamically. -/
structure LinearJointRec where
  id : ℕ
  axis : Axis3
  range : ℝ × ℝ
  position : Option ℝ
  angle : Option ℝ
  relative_axis : Axis3
  connected_to : Option ℕ

/-- State of a `CylindricalJoint` (`joints.py` lines 288-394).
`linear_position` and `rotational_position` are set to `None` at construction
and never touched again; `connect_to` records into the dynamically added
`position` and `angle` attributes instead. -/
structure CylindricalJointRec where
  id : ℕ
  axis : Axis3
  linear_range : ℝ × ℝ
  rotational_range : ℝ × ℝ
  linear_position : Option ℝ
  rotational_position : Option ℝ
  position : Option ℝ
  angle : Option ℝ
  angle_reference : Vec3
  relative_axis : Axis3
  connected_to : Option ℕ

/-- State of a `BallJoint` (`joints.py` lines 397-495).  The angle ranges are
the X, Y and Z (min, max) pairs. -/
structure BallJointRec where
  id : ℕ
  relative_location : Loc
  angle_range : (ℝ × ℝ) × (ℝ × ℝ) × (ℝ × ℝ)
  angle_reference : Plane3
  connected_to : Option ℕ

/-- A joint of any of the five variants, the runtime type of the `other`
argument of `connect_to`. -/
inductive AnyJoint where
  | rigid (j : RigidJointRec)
  | revolute (j : RevoluteJointRec)
  | linear (j : LinearJointRec)
  | cylindrical (j : CylindricalJointRec)
  | ball (j : BallJointRec)

/-- The id of a joint of any variant. -/
def AnyJoint.jointId : AnyJoint → ℕ
  | .rigid j => j.id
  | .revolute j => j.id
  | .linear j => j.id
  | .cylindrical j => j.id
  | .ball j => j.id

/-- Python attribute lookup `other.relative_location`: only `RigidJoint` and
`BallJoint` carry that attribute; on the other variants the lookup raises
`AttributeError` (modelled by `none`). -/
def AnyJoint.relativeLocOf : AnyJoint → Option Loc
  | .rigid j => some j.relative_location
  | .ball j => some j.relative_location
  | _ => none

/-- Whether the runtime `isinstance(other, RigidJoint)` test succeeds. -/
def AnyJoint.isRigid : AnyJoint → Bool
  | .rigid _ => true
  | _ => false

/-- Whether the runtime `isinstance(other, RevoluteJoint)` test succeeds. -/
def AnyJoint.isRevolute : AnyJoint → Bool
  | .revolute _ => true
  | _ => false

/-- Everything a `connect_to` call can observe or mutate: the calling joint's
record, the partner joint, both bodies' placements, and the exception raised
(`none` on success).  Mutations performed before a raise are kept, as in
Python. -/
structure Out (J : Type) where
  selfJoint : J
  other : AnyJoint
  selfParent : Loc
  otherParent : Loc
  err : Option PyErr

/-- `RigidJoint.connect_to` (`joints.py` lines 62-74): no partner type check;
the attribute lookup `other.relative_location` raises `AttributeError` for
partner variants that lack it; otherwise the partner body is relocated to
`self.parent.location * self.relative_location * other.relative_location` and
`connected_to` is set. -/
def RigidJointRec.connect_to (s : RigidJointRec) (selfParent : Loc)
    (other : AnyJoint) (otherParent : Loc) : Out RigidJointRec :=
  match other.relativeLocOf with
  | none => ⟨s, other, selfParent, otherParent, some .attributeError⟩
  | some orl =>
      ⟨{ s with connected_to := some other.jointId }, other, selfParent,
        (selfParent.comp s.relative_location).comp orl, none⟩

/-- `RevoluteJoint.connect_to` (`joints.py` lines 128-165): partner must be a
`RigidJoint`; the angle defaults to `range[0]` and must lie in `range`; the
accepted angle is recorded, then `360` is substituted for `0` before building
the rotation about the world Z direction from the stored `angle_reference`. -/
noncomputable def RevoluteJointRec.connect_to (s : RevoluteJointRec)
    (selfParent : Loc) (other : AnyJoint) (otherParent : Loc)
    (angle : Option ℝ) : Out RevoluteJointRec :=
  match other with
  | .rigid oj =>
      if s.range.1 ≤ angle.getD s.range.1 ∧ angle.getD s.range.1 ≤ s.range.2 then
        ⟨{ s with
            angle := some (angle.getD s.range.1)
            connected_to := some oj.id },
          .rigid oj, selfParent,
          ((selfParent.comp s.relative_axis.to_location).comp
            (planeLoc Vec3.zero
              (s.angle_reference.rotate ⟨0, 0, 1⟩
                (if angle.getD s.range.1 = 0 then 360 else angle.getD s.range.1))
              ⟨0, 0, 1⟩)).comp oj.relative_location.inverse,
          none⟩
      else ⟨s, .rigid oj, selfParent, otherParent, some .valueError⟩
  | _ => ⟨s, other, selfParent, otherParent, some .typeError⟩

/-- `LinearJoint.connect_to` (`joints.py` lines 237-285): partner must be a
`RigidJoint` or a `RevoluteJoint`; the position defaults to the middle of the
range, is validated and recorded; for a `RevoluteJoint` partner the angle
(defaulting to the partner's range minimum) is then validated — the position
recorded just before stays recorded if this validation fails — and the
rotation is built from the partner's `angle_reference` rotated about the
partner's `relative_axis`, with Z aligned to that axis' direction; for a
`RigidJoint` partner the angle is `0` and the rotation is the identity. -/
noncomputable def LinearJointRec.connect_to (s : LinearJointRec)
    (selfParent : Loc) (other : AnyJoint) (otherParent : Loc)
    (position angle : Option ℝ) : Out LinearJointRec :=
  match other with
  | .rigid oj =>
      if s.range.1 ≤ position.getD ((s.range.1 + s.range.2) / 2) ∧
          position.getD ((s.range.1 + s.range.2) / 2) ≤ s.range.2 then
        ⟨{ s with
            position := some (position.getD ((s.range.1 + s.range.2) / 2))
            angle := some 0
            connected_to := some oj.id },
          .rigid oj, selfParent,
          selfParent.comp
            ((Loc.translation (s.relative_axis.position.add
              (Vec3.smul (position.getD ((s.range.1 + s.range.2) / 2))
                s.relative_axis.direction))).comp Loc.one),
          none⟩
      else ⟨s, .rigid oj, selfParent, otherParent, some .valueError⟩
  | .revolute oj =>
      if s.range.1 ≤ position.getD ((s.range.1 + s.range.2) / 2) ∧
          position.getD ((s.range.1 + s.range.2) / 2) ≤ s.range.2 then
        if oj.range.1 ≤ angle.getD oj.range.1 ∧ angle.getD oj.range.1 ≤ oj.range.2 then
          ⟨{ s with
              position := some (position.getD ((s.range.1 + s.range.2) / 2))
              angle := some (angle.getD oj.range.1)
              connected_to := some oj.id },
            .revolute oj, selfParent,
            selfParent.comp
              ((Loc.translation (s.relative_axis.position.add
                (Vec3.smul (position.getD ((s.range.1 + s.range.2) / 2))
                  s.relative_axis.direction))).comp
                (planeLoc Vec3.zero
                  (oj.angle_reference.rotate oj.relative_axis.direction
                    (angle.getD oj.range.1))
                  oj.relative_axis.direction)),
            none⟩
        else
          ⟨{ s with position := some (position.getD ((s.range.1 + s.range.2) / 2)) },
            .revolute oj, selfParent, otherParent, some .valueError⟩
      else ⟨s, .revolute oj, selfParent, otherParent, some .valueError⟩
  | _ => ⟨s, other, selfParent, otherParent, some .typeError⟩

/-- `CylindricalJoint.connect_to` (`joints.py` lines 347-394): partner must be
a `RigidJoint`; position defaults to the middle of `linear_range`, is
validated and recorded; the angle defaults to the middle of
`rotational_range` and is then validated — the recorded position stays if
this fails; on success the partner body is placed by the translation along
the relative axis composed with the rotation of `angle_reference` about that
axis. -/
noncomputable def CylindricalJointRec.connect_to (s : CylindricalJointRec)
    (selfParent : Loc) (other : AnyJoint) (otherParent : Loc)
    (position angle : Option ℝ) : Out CylindricalJointRec :=
  match other with
  | .rigid oj =>
      if s.linear_range.1 ≤ position.getD ((s.linear_range.1 + s.linear_range.2) / 2) ∧
          position.getD ((s.linear_range.1 + s.linear_range.2) / 2) ≤ s.linear_range.2 then
        if s.rotational_range.1 ≤ angle.getD ((s.rotational_range.1 + s.rotational_range.2) / 2) ∧
            angle.getD ((s.rotational_range.1 + s.rotational_range.2) / 2) ≤ s.rotational_range.2 then
          ⟨{ s with
              position := some (position.getD ((s.linear_range.1 + s.linear_range.2) / 2))
              angle := some (angle.getD ((s.rotational_range.1 + s.rotational_range.2) / 2))
              connected_to := some oj.id },
            .rigid oj, selfParent,
            (selfParent.comp
              (Loc.translation (s.relative_axis.position.add
                (Vec3.smul (position.getD ((s.linear_range.1 + s.linear_range.2) / 2))
                  s.relative_axis.direction)))).comp
              (planeLoc Vec3.zero
                (s.angle_reference.rotate s.relative_axis.direction
                  (angle.getD ((s.rotational_range.1 + s.rotational_range.2) / 2)))
                s.relative_axis.direction),
            none⟩
        else
          ⟨{ s with
               position := some (position.getD ((s.linear_range.1 + s.linear_range.2) / 2)) },
            .rigid oj, selfParent, otherParent, some .valueError⟩
      else ⟨s, .rigid oj, selfParent, otherParent, some .valueError⟩
  | _ => ⟨s, other, selfParent, otherParent, some .typeError⟩

/-- The rotation a `BallJoint.connect_to` call builds (`joints.py` lines
473-477): `Rotation` of the supplied angles — defaulting to the three range
minimums — composed with the frame of the `angle_reference` plane. -/
noncomputable def BallJointRec.rotationOf (s : BallJointRec)
    (angles : Option (ℝ × ℝ × ℝ)) : Loc :=
  (match angles with
    | none => Rotation3 s.angle_range.1.1 s.angle_range.2.1.1 s.angle_range.2.2.1
    | some a => Rotation3 a.1 a.2.1 a.2.2).comp s.angle_reference.to_location

/-- `BallJoint.connect_to` (`joints.py` lines 455-495): partner must be a
`RigidJoint`; each component of the decomposed orientation of the built
rotation (not the input angles) is validated against its range; on success the
partner body is relocated to `self.parent.location * self.relative_location *
rotation * other.relative_location.inverse()`. -/
noncomputable def BallJointRec.connect_to (s : BallJointRec) (selfParent : Loc)
    (other : AnyJoint) (otherParent : Loc)
    (angles : Option (ℝ × ℝ × ℝ)) : Out BallJointRec :=
  match other with
  | .rigid oj =>
      if s.angle_range.1.1 ≤ (s.rotationOf angles).orientation.x ∧
          (s.rotationOf angles).orientation.x ≤ s.angle_range.1.2 ∧
          s.angle_range.2.1.1 ≤ (s.rotationOf angles).orientation.y ∧
          (s.rotationOf angles).orientation.y ≤ s.angle_range.2.1.2 ∧
          s.angle_range.2.2.1 ≤ (s.rotationOf angles).orientation.z ∧
          (s.rotationOf angles).orientation.z ≤ s.angle_range.2.2.2 then
        ⟨{ s with connected_to := some oj.id }, .rigid oj, selfParent,
          ((selfParent.comp s.relative_location).comp (s.rotationOf angles)).comp
            oj.relative_location.inverse,
          none⟩
      else ⟨s, .rigid oj, selfParent, otherParent, some .valueError⟩
  | _ => ⟨s, other, selfParent, otherParent, some .typeError⟩

/-- `RevoluteJoint.__init__` (`joints.py` lines 106-126): a supplied angle
reference must be normal to the axis, else `ValueError`; when omitted, the
in-plane x direction of the axis' normal frame is derived; the axis is stored
relative to the body's placement. -/
noncomputable def RevoluteJoint.init (jid : ℕ) (axis : Axis3)
    (angle_reference : Option Vec3) (range : ℝ × ℝ) (partLoc : Loc) :
    Except PyErr RevoluteJointRec :=
  match angle_reference with
  | some ar =>
      if axis.direction.dot ar = 0 then
        .ok ⟨jid, range, ar, none, axis.located partLoc.inverse, none⟩
      else .error .valueError
  | none =>
      .ok ⟨jid, range, xDirOf axis.direction, none,
        axis.located partLoc.inverse, none⟩

/-- `CylindricalJoint.__init__` (`joints.py` lines 321-345): when an angle
reference is supplied, line 336 reads `self.angle_reference` before line 338
assigns it, so the constructor raises `AttributeError` for every supplied
reference, normal to the axis or not; when it is omitted the derived
reference is stored and construction succeeds. -/
noncomputable def CylindricalJoint.init (jid : ℕ) (axis : Axis3)
    (angle_reference : Option Vec3) (linear_range rotational_range : ℝ × ℝ)
    (partLoc : Loc) : Except PyErr CylindricalJointRec :=
  match angle_reference with
  | some _ => .error .attributeError
  | none =>
      .ok ⟨jid, axis, linear_range, rotational_range, none, none, none, none,
        xDirOf axis.direction, axis.located partLoc.inverse, none⟩

/-- A sample rigid joint, its frame at the body origin. -/
def sampleRigid : RigidJointRec := ⟨1, Loc.one, none⟩

/-- A second sample rigid joint. -/
def sampleRigid2 : RigidJointRec := ⟨2, Loc.one, none⟩

/-- A sample revolute joint about the body X axis, reference the Y direction,
range (0, 360). -/
def sampleRev : RevoluteJointRec :=
  ⟨3, (0, 360), ⟨0, 1, 0⟩, none, ⟨Vec3.zero, ⟨1, 0, 0⟩⟩, none⟩

/-- A sample linear joint along the body Z axis with range (0, 10). -/
def sampleLin : LinearJointRec :=
  ⟨4, ⟨Vec3.zero, ⟨0, 0, 1⟩⟩, (0, 10), none, none, ⟨Vec3.zero, ⟨0, 0, 1⟩⟩, none⟩

/-- A sample cylindrical joint along the body Z axis. -/
def sampleCyl : CylindricalJointRec :=
  ⟨5, ⟨Vec3.zero, ⟨0, 0, 1⟩⟩, (0, 10), (0, 360), none, none, none, none,
    ⟨1, 0, 0⟩, ⟨Vec3.zero, ⟨0, 0, 1⟩⟩, none⟩

/-- A sample ball joint with full ranges and the XY reference plane. -/
def sampleBall : BallJointRec :=
  ⟨6, Loc.one, ((0, 360), (0, 360), (0, 360)), Plane3.XY, none⟩

/-- C2: `RigidJoint.connect_to` sets the partner body's placement to exactly
`self.body.placement ∘ self.relative_frame ∘ other.relative_frame`, raises no
error, and calling it a second time with the calling body's placement
unchanged yields the same partner placement (idempotence). -/
theorem C2_rigid_connect_closed_form (s oj : RigidJointRec) (sp op : Loc) :
    (s.connect_to sp (.rigid oj) op).err = none ∧
    (s.connect_to sp (.rigid oj) op).otherParent =
      (sp.comp s.relative_location).comp oj.relative_location ∧
    ((s.connect_to sp (.rigid oj) op).selfJoint.connect_to sp (.rigid oj)
        (s.connect_to sp (.rigid oj) op).otherParent).otherParent =
      (s.connect_to sp (.rigid oj) op).otherParent :=
  ⟨rfl, rfl, rfl⟩

/-- C3: for any revolute joint whose angle range contains both 0 and 360, and
any rigid partner, connecting with angle 0 and connecting with angle 360
produce identical placements of the partner's body. -/
theorem C3_revolute_angle_zero_eq_360 (s : RevoluteJointRec)
    (oj : RigidJointRec) (sp op : Loc) (h0 : s.range.1 ≤ 0 ∧ 0 ≤ s.range.2)
    (h360 : s.range.1 ≤ 360 ∧ 360 ≤ s.range.2) :
    (s.connect_to sp (.rigid oj) op (some 0)).otherParent =
      (s.connect_to sp (.rigid oj) op (some 360)).otherParent := by
  simp only [RevoluteJointRec.connect_to, Option.getD_some]
  rw [if_pos h0, if_pos h360]
  norm_num

/-- C3 witness: the two connect calls coincide at the sample hinge. -/
theorem C3_revolute_angle_zero_eq_360_witness :
    (sampleRev.range.1 ≤ 0 ∧ (0:ℝ) ≤ sampleRev.range.2) ∧
    (sampleRev.connect_to Loc.one (.rigid sampleRigid) Loc.one (some 0)).otherParent =
      (sampleRev.connect_to Loc.one (.rigid sampleRigid) Loc.one (some 360)).otherParent :=
  ⟨by norm_num [sampleRev],
    C3_revolute_angle_zero_eq_360 sampleRev sampleRigid Loc.one Loc.one
      (by norm_num [sampleRev]) (by norm_num [sampleRev])⟩

/-- C10: after a successful revolute connect with angle 0 (0 being in range),
the recorded angle is the caller's 0, while the partner placement is the one
built with the substituted angle 360. -/
theorem C10_revolute_records_caller_zero (s : RevoluteJointRec)
    (oj : RigidJointRec) (sp op : Loc) (h0 : s.range.1 ≤ 0 ∧ 0 ≤ s.range.2) :
    (s.connect_to sp (.rigid oj) op (some 0)).err = none ∧
    (s.connect_to sp (.rigid oj) op (some 0)).selfJoint.angle = some 0 ∧
    (s.connect_to sp (.rigid oj) op (some 0)).otherParent =
      ((sp.comp s.relative_axis.to_location).comp
        (planeLoc Vec3.zero (s.angle_reference.rotate ⟨0, 0, 1⟩ 360) ⟨0, 0, 1⟩)).comp
        oj.relative_location.inverse := by
  simp only [RevoluteJointRec.connect_to, Option.getD_some]
  rw [if_pos h0]
  norm_num

/-- C10 witness: the sample hinge connected at angle 0 records angle 0. -/
theorem C10_revolute_records_caller_zero_witness :
    (sampleRev.range.1 ≤ 0 ∧ (0:ℝ) ≤ sampleRev.range.2) ∧
    (sampleRev.connect_to Loc.one (.rigid sampleRigid) Loc.one (some 0)).selfJoint.angle =
      some 0 :=
  ⟨by norm_num [sampleRev],
    (C10_revolute_records_caller_zero sampleRev sampleRigid Loc.one Loc.one
      (by norm_num [sampleRev])).2.1⟩

/-- C8: a linear connect with the position omitted resolves it to the middle
of the range, and with a revolute partner and the angle omitted resolves the
angle to the partner's range minimum. -/
theorem C8_linear_defaults (s : LinearJointRec) (oj : RigidJointRec)
    (rj : RevoluteJointRec) (sp op : Loc) (p : ℝ)
    (hmid : s.range.1 ≤ (s.range.1 + s.range.2) / 2 ∧
      (s.range.1 + s.range.2) / 2 ≤ s.range.2)
    (hp : s.range.1 ≤ p ∧ p ≤ s.range.2)
    (hr : rj.range.1 ≤ rj.range.2) :
    (s.connect_to sp (.rigid oj) op none none).selfJoint.position =
      some ((s.range.1 + s.range.2) / 2) ∧
    (s.connect_to sp (.revolute rj) op (some p) none).selfJoint.angle =
      some rj.range.1 := by
  constructor
  · simp only [LinearJointRec.connect_to, Option.getD_none]
    rw [if_pos hmid]
  · simp only [LinearJointRec.connect_to, Option.getD_none, Option.getD_some]
    rw [if_pos hp, if_pos ⟨le_refl _, hr⟩]

/-- C8 witness: the sample slider defaults its position to 5, the middle of
(0, 10), and the sample pin-slot defaults its angle to 0. -/
theorem C8_linear_defaults_witness :
    (sampleLin.range.1 ≤ (sampleLin.range.1 + sampleLin.range.2) / 2 ∧
      (sampleLin.range.1 + sampleLin.range.2) / 2 ≤ sampleLin.range.2) ∧
    (sampleLin.connect_to Loc.one (.rigid sampleRigid) Loc.one none none).selfJoint.position =
      some ((sampleLin.range.1 + sampleLin.range.2) / 2) ∧
    (sampleLin.connect_to Loc.one (.revolute sampleRev) Loc.one (some 5) none).selfJoint.angle =
      some sampleRev.range.1 :=
  ⟨by norm_num [sampleLin],
    (C8_linear_defaults sampleLin sampleRigid sampleRev Loc.one Loc.one 5
      (by norm_num [sampleLin]) (by norm_num [sampleLin])
      (by norm_num [sampleRev])).1,
    (C8_linear_defaults sampleLin sampleRigid sampleRev Loc.one Loc.one 5
      (by norm_num [sampleLin]) (by norm_num [sampleLin])
      (by norm_num [sampleRev])).2⟩

/-- C9: for every successful connect call of every variant, the calling body's
placement is untouched, the partner joint's record (in particular its
`connected_to` field) is untouched, and `connected_to` is set only on the
calling joint, to the partner. -/
theorem C9_connect_frame_conditions :
    (∀ (s : RigidJointRec) (sp : Loc) (other : AnyJoint) (op : Loc),
      (s.connect_to sp other op).err = none →
        (s.connect_to sp other op).selfParent = sp ∧
        (s.connect_to sp other op).other = other ∧
        (s.connect_to sp other op).selfJoint.connected_to = some other.jointId) ∧
    (∀ (s : RevoluteJointRec) (sp : Loc) (other : AnyJoint) (op : Loc)
        (a : Option ℝ),
      (s.connect_to sp other op a).err = none →
        (s.connect_to sp other op a).selfParent = sp ∧
        (s.connect_to sp other op a).other = other ∧
        (s.connect_to sp other op a).selfJoint.connected_to = some other.jointId) ∧
    (∀ (s : LinearJointRec) (sp : Loc) (other : AnyJoint) (op : Loc)
        (p a : Option ℝ),
      (s.connect_to sp other op p a).err = none →
        (s.connect_to sp other op p a).selfParent = sp ∧
        (s.connect_to sp other op p a).other = other ∧
        (s.connect_to sp other op p a).selfJoint.connected_to = some other.jointId) ∧
    (∀ (s : CylindricalJointRec) (sp : Loc) (other : AnyJoint) (op : Loc)
        (p a : Option ℝ),
      (s.connect_to sp other op p a).err = none →
        (s.connect_to sp other op p a).selfParent = sp ∧
        (s.connect_to sp other op p a).other = other ∧
        (s.connect_to sp other op p a).selfJoint.connected_to = some other.jointId) ∧
    (∀ (s : BallJointRec) (sp : Loc) (other : AnyJoint) (op : Loc)
        (an : Option (ℝ × ℝ × ℝ)),
      (s.connect_to sp other op an).err = none →
        (s.connect_to sp other op an).selfParent = sp ∧
        (s.connect_to sp other op an).other = other ∧
        (s.connect_to sp other op an).selfJoint.connected_to = some other.jointId) := by
  refine ⟨?_, ?_, ?_, ?_, ?_⟩
  · intro s sp other op h
    cases other <;>
      simp_all [RigidJointRec.connect_to, AnyJoint.relativeLocOf, AnyJoint.jointId]
  · intro s sp other op a h
    cases other with
    | rigid oj =>
        by_cases hc : s.range.1 ≤ a.getD s.range.1 ∧ a.getD s.range.1 ≤ s.range.2
        · simp [RevoluteJointRec.connect_to, hc, AnyJoint.jointId]
        · simp [RevoluteJointRec.connect_to, hc] at h
    | revolute j => simp [RevoluteJointRec.connect_to] at h
    | linear j => simp [RevoluteJointRec.connect_to] at h
    | cylindrical j => simp [RevoluteJointRec.connect_to] at h
    | ball j => simp [RevoluteJointRec.connect_to] at h
  · intro s sp other op p a h
    cases other with
    | rigid oj =>
        by_cases hc : s.range.1 ≤ p.getD ((s.range.1 + s.range.2) / 2) ∧
            p.getD ((s.range.1 + s.range.2) / 2) ≤ s.range.2
        · simp [LinearJointRec.connect_to, hc, AnyJoint.jointId]
        · simp [LinearJointRec.connect_to, hc] at h
    | revolute oj =>
        by_cases hc : s.range.1 ≤ p.getD ((s.range.1 + s.range.2) / 2) ∧
            p.getD ((s.range.1 + s.range.2) / 2) ≤ s.range.2
        · by_cases ha : oj.range.1 ≤ a.getD oj.range.1 ∧ a.getD oj.range.1 ≤ oj.range.2
          · simp [LinearJointRec.connect_to, hc, ha, AnyJoint.jointId]
          · simp [LinearJointRec.connect_to, hc, ha] at h
        · simp [LinearJointRec.connect_to, hc] at h
    | linear j => simp [LinearJointRec.connect_to] at h
    | cylindrical j => simp [LinearJointRec.connect_to] at h
    | ball j => simp [LinearJointRec.connect_to] at h
  · intro s sp other op p a h
    cases other with
    | rigid oj =>
        by_cases hc : s.linear_range.1 ≤ p.getD ((s.linear_range.1 + s.linear_range.2) / 2) ∧
            p.getD ((s.linear_range.1 + s.linear_range.2) / 2) ≤ s.linear_range.2
        · by_cases ha : s.rotational_range.1 ≤
              a.getD ((s.rotational_range.1 + s.rotational_range.2) / 2) ∧
              a.getD ((s.rotational_range.1 + s.rotational_range.2) / 2) ≤ s.rotational_range.2
          · simp [CylindricalJointRec.connect_to, hc, ha, AnyJoint.jointId]
          · simp [CylindricalJointRec.connect_to, hc, ha] at h
        · simp [CylindricalJointRec.connect_to, hc] at h
    | revolute j => simp [CylindricalJointRec.connect_to] at h
    | linear j => simp [CylindricalJointRec.connect_to] at h
    | cylindrical j => simp [CylindricalJointRec.connect_to] at h
    | ball j => simp [CylindricalJointRec.connect_to] at h
  · intro s sp other op an h
    cases other with
    | rigid oj =>
        by_cases hc : s.angle_range.1.1 ≤ (s.rotationOf an).orientation.x ∧
            (s.rotationOf an).orientation.x ≤ s.angle_range.1.2 ∧
            s.angle_range.2.1.1 ≤ (s.rotationOf an).orientation.y ∧
            (s.rotationOf an).orientation.y ≤ s.angle_range.2.1.2 ∧
            s.angle_range.2.2.1 ≤ (s.rotationOf an).orientation.z ∧
            (s.rotationOf an).orientation.z ≤ s.angle_range.2.2.2
        · simp [BallJointRec.connect_to, hc, AnyJoint.jointId]
        · simp [BallJointRec.connect_to, hc] at h
    | revolute j => simp [BallJointRec.connect_to] at h
    | linear j => simp [BallJointRec.connect_to] at h
    | cylindrical j => simp [BallJointRec.connect_to] at h
    | ball j => simp [BallJointRec.connect_to] at h

/-- C9 witness: a successful sample rigid-to-rigid connect keeps the calling
body and the partner joint unchanged and back-references the partner. -/
theorem C9_connect_frame_conditions_witness :
    (sampleRigid.connect_to Loc.one (.rigid sampleRigid2) Loc.one).err = none ∧
    ((sampleRigid.connect_to Loc.one (.rigid sampleRigid2) Loc.one).selfParent = Loc.one ∧
      (sampleRigid.connect_to Loc.one (.rigid sampleRigid2) Loc.one).other = .rigid sampleRigid2 ∧
      (sampleRigid.connect_to Loc.one (.rigid sampleRigid2) Loc.one).selfJoint.connected_to =
        some (AnyJoint.rigid sampleRigid2).jointId) :=
  ⟨rfl, C9_connect_frame_conditions.1 sampleRigid Loc.one (.rigid sampleRigid2) Loc.one rfl⟩

/-- C4 counterexample: `RigidJoint.connect_to` performs no partner type check;
called with a revolute partner it raises `AttributeError` (the lookup of
`other.relative_location`), not the `TypeError` the claim requires. -/
theorem C4_counterexample :
    (sampleRigid.connect_to Loc.one (.revolute sampleRev) Loc.one).err =
      some .attributeError ∧
    (sampleRigid.connect_to Loc.one (.revolute sampleRev) Loc.one).err ≠
      some .typeError :=
  ⟨rfl, by simp [RigidJointRec.connect_to, AnyJoint.relativeLocOf]⟩

/-- C4 amended: `RevoluteJoint`, `LinearJoint`, `CylindricalJoint` and
`BallJoint` type-check their partner and raise `TypeError` for variants
outside their accepted sets (only a rigid partner, except `LinearJoint` which
also accepts a revolute partner); `RigidJoint.connect_to` performs no type
check and instead raises `AttributeError` when the partner lacks a
`relative_location` attribute, e.g. a revolute partner. -/
theorem C4_amended_partner_type_checks :
    (∀ (s : RevoluteJointRec) (sp : Loc) (other : AnyJoint) (op : Loc)
        (a : Option ℝ), other.isRigid = false →
      (s.connect_to sp other op a).err = some .typeError) ∧
    (∀ (s : LinearJointRec) (sp : Loc) (other : AnyJoint) (op : Loc)
        (p a : Option ℝ), other.isRigid = false → other.isRevolute = false →
      (s.connect_to sp other op p a).err = some .typeError) ∧
    (∀ (s : CylindricalJointRec) (sp : Loc) (other : AnyJoint) (op : Loc)
        (p a : Option ℝ), other.isRigid = false →
      (s.connect_to sp other op p a).err = some .typeError) ∧
    (∀ (s : BallJointRec) (sp : Loc) (other : AnyJoint) (op : Loc)
        (an : Option (ℝ × ℝ × ℝ)), other.isRigid = false →
      (s.connect_to sp other op an).err = some .typeError) ∧
    (∀ (s : RigidJointRec) (sp : Loc) (rj : RevoluteJointRec) (op : Loc),
      (s.connect_to sp (.revolute rj) op).err = some .attributeError) := by
  refine ⟨?_, ?_, ?_, ?_, ?_⟩
  · intro s sp other op a h
    cases other <;> simp_all [RevoluteJointRec.connect_to, AnyJoint.isRigid]
  · intro s sp other op p a h h'
    cases other <;>
      simp_all [LinearJointRec.connect_to, AnyJoint.isRigid, AnyJoint.isRevolute]
  · intro s sp other op p a h
    cases other <;> simp_all [CylindricalJointRec.connect_to, AnyJoint.isRigid]
  · intro s sp other op an h
    cases other <;> simp_all [BallJointRec.connect_to, AnyJoint.isRigid]
  · intro s sp rj op
    rfl

/-- C4 amended witness: a linear partner makes the sample revolute joint's
connect raise `TypeError`. -/
theorem C4_amended_partner_type_checks_witness :
    (AnyJoint.linear sampleLin).isRigid = false ∧
    (sampleRev.connect_to Loc.one (.linear sampleLin) Loc.one none).err =
      some .typeError :=
  ⟨rfl, C4_amended_partner_type_checks.1 sampleRev Loc.one (.linear sampleLin)
    Loc.one none rfl⟩

/-- C1 counterexample: a linear connect with the position 5 inside the range
(0, 10) and the angle 400 outside the partner's range (0, 360) raises
`ValueError`, yet the joint's recorded position, `None` before the call, has
been changed to 5 — the claim's "recorded position is unchanged" fails. -/
theorem C1_counterexample :
    sampleLin.position = none ∧
    (sampleLin.connect_to Loc.one (.revolute sampleRev) Loc.one
      (some 5) (some 400)).err = some .valueError ∧
    (sampleLin.connect_to Loc.one (.revolute sampleRev) Loc.one
      (some 5) (some 400)).selfJoint.position = some 5 := by
  refine ⟨rfl, ?_, ?_⟩ <;>
    norm_num [sampleLin, sampleRev, LinearJointRec.connect_to]

/-- C1 amended: an out-of-range position/angle raises `ValueError` and leaves
both bodies' placements and `connected_to` unchanged; parameters checked after
the failing one are unchanged as well, but a `LinearJoint` or
`CylindricalJoint` connect whose position is in range and whose angle is out
of range has already recorded the resolved position when it raises (only the
recorded angle is unchanged there). -/
theorem C1_amended_range_error_effects :
    (∀ (s : RevoluteJointRec) (oj : RigidJointRec) (sp op : Loc) (a : ℝ),
      ¬(s.range.1 ≤ a ∧ a ≤ s.range.2) →
      s.connect_to sp (.rigid oj) op (some a) =
        ⟨s, .rigid oj, sp, op, some .valueError⟩) ∧
    (∀ (s : LinearJointRec) (oj : RigidJointRec) (sp op : Loc) (p : ℝ)
        (a : Option ℝ),
      ¬(s.range.1 ≤ p ∧ p ≤ s.range.2) →
      s.connect_to sp (.rigid oj) op (some p) a =
        ⟨s, .rigid oj, sp, op, some .valueError⟩) ∧
    (∀ (s : LinearJointRec) (rj : RevoluteJointRec) (sp op : Loc) (p a : ℝ),
      s.range.1 ≤ p ∧ p ≤ s.range.2 →
      ¬(rj.range.1 ≤ a ∧ a ≤ rj.range.2) →
      s.connect_to sp (.revolute rj) op (some p) (some a) =
        ⟨{ s with position := some p }, .revolute rj, sp, op, some .valueError⟩) ∧
    (∀ (s : CylindricalJointRec) (oj : RigidJointRec) (sp op : Loc) (p : ℝ)
        (a : Option ℝ),
      ¬(s.linear_range.1 ≤ p ∧ p ≤ s.linear_range.2) →
      s.connect_to sp (.rigid oj) op (some p) a =
        ⟨s, .rigid oj, sp, op, some .valueError⟩) ∧
    (∀ (s : CylindricalJointRec) (oj : RigidJointRec) (sp op : Loc) (p a : ℝ),
      s.linear_range.1 ≤ p ∧ p ≤ s.linear_range.2 →
      ¬(s.rotational_range.1 ≤ a ∧ a ≤ s.rotational_range.2) →
      s.connect_to sp (.rigid oj) op (some p) (some a) =
        ⟨{ s with position := some p }, .rigid oj, sp, op, some .valueError⟩) ∧
    (∀ (s : BallJointRec) (oj : RigidJointRec) (sp op : Loc)
        (an : Option (ℝ × ℝ × ℝ)),
      ¬(s.angle_range.1.1 ≤ (s.rotationOf an).orientation.x ∧
          (s.rotationOf an).orientation.x ≤ s.angle_range.1.2 ∧
          s.angle_range.2.1.1 ≤ (s.rotationOf an).orientation.y ∧
          (s.rotationOf an).orientation.y ≤ s.angle_range.2.1.2 ∧
          s.angle_range.2.2.1 ≤ (s.rotationOf an).orientation.z ∧
          (s.rotationOf an).orientation.z ≤ s.angle_range.2.2.2) →
      s.connect_to sp (.rigid oj) op an =
        ⟨s, .rigid oj, sp, op, some .valueError⟩) := by
  refine ⟨?_, ?_, ?_, ?_, ?_, ?_⟩
  · intro s oj sp op a h
    simp [RevoluteJointRec.connect_to, h]
  · intro s oj sp op p a h
    simp [LinearJointRec.connect_to, h]
  · intro s rj sp op p a hp h
    simp [LinearJointRec.connect_to, hp, h]
  · intro s oj sp op p a h
    simp [CylindricalJointRec.connect_to, h]
  · intro s oj sp op p a hp h
    simp [CylindricalJointRec.connect_to, hp, h]
  · intro s oj sp op an h
    simp [BallJointRec.connect_to, h]

/-- C1 amended witness: the sample hinge rejects angle 400 and is returned
with every field as before the call. -/
theorem C1_amended_range_error_effects_witness :
    ¬(sampleRev.range.1 ≤ 400 ∧ (400:ℝ) ≤ sampleRev.range.2) ∧
    sampleRev.connect_to Loc.one (.rigid sampleRigid) Loc.one (some 400) =
      ⟨sampleRev, .rigid sampleRigid, Loc.one, Loc.one, some .valueError⟩ :=
  ⟨by norm_num [sampleRev],
    C1_amended_range_error_effects.1 sampleRev sampleRigid Loc.one Loc.one 400
      (by norm_num [sampleRev])⟩

/-- Composing with the identity frame on the right changes nothing. -/
theorem Loc.comp_one (l : Loc) : l.comp Loc.one = l := by
  obtain ⟨⟨⟨a1, a2, a3⟩, ⟨b1, b2, b3⟩, ⟨c1, c2, c3⟩⟩, ⟨t1, t2, t3⟩⟩ := l
  simp [Loc.comp, Loc.one, Mat3.mul, Mat3.one, Mat3.mulVec, Vec3.smul,
    Vec3.add, Vec3.zero]

/-- The pin-slot placement exactly as claim C5 words it: the offset along the
linear joint's axis, then a rotation built from the partner's reference
rotated about the LINEAR joint's own axis direction, with Z aligned to that
same (self) axis direction. -/
noncomputable def claimedPinSlotPlacement (s : LinearJointRec) (sp : Loc)
    (rj : RevoluteJointRec) (pos a : ℝ) : Loc :=
  sp.comp
    ((Loc.translation (s.relative_axis.position.add
      (Vec3.smul pos s.relative_axis.direction))).comp
      (planeLoc Vec3.zero
        (rj.angle_reference.rotate s.relative_axis.direction a)
        s.relative_axis.direction))

/-- C5 counterexample: the sample slider (axis along Z) connected to the
sample revolute partner (relative axis along X) at position 5, angle 0,
succeeds, but the placement the code computes — rotation about the PARTNER's
relative axis — differs from the claim's formula, which rotates about the
linear joint's own axis direction. -/
theorem C5_counterexample :
    (sampleLin.connect_to Loc.one (.revolute sampleRev) Loc.one
      (some 5) (some 0)).err = none ∧
    (sampleLin.connect_to Loc.one (.revolute sampleRev) Loc.one
      (some 5) (some 0)).otherParent ≠
      claimedPinSlotPlacement sampleLin Loc.one sampleRev 5 0 := by
  constructor
  · norm_num [sampleLin, sampleRev, LinearJointRec.connect_to]
  · norm_num [sampleLin, sampleRev, LinearJointRec.connect_to,
      claimedPinSlotPlacement, Loc.comp, Loc.one, Loc.translation, Mat3.mul,
      Mat3.mulVec, Mat3.one, Vec3.add, Vec3.smul, Vec3.cross, Vec3.dot,
      Vec3.zero, Vec3.rotate, planeLoc, cosd, sind, Loc.mk.injEq,
      Mat3.mk.injEq, Vec3.mk.injEq]

/-- C5 amended: with an in-range position, a rigid partner is placed at
`self.body.placement ∘ frame(relative_axis.origin + relative_axis.direction *
position)` with identity rotation, and a revolute partner (in-range angle)
additionally gets the rotation built from ITS reference rotated about ITS OWN
relative axis, with Z aligned to that partner axis direction. -/
theorem C5_amended_linear_connect_placement (s : LinearJointRec)
    (oj : RigidJointRec) (rj : RevoluteJointRec) (sp op : Loc) (p a : ℝ)
    (hp : s.range.1 ≤ p ∧ p ≤ s.range.2)
    (ha : rj.range.1 ≤ a ∧ a ≤ rj.range.2) :
    ((s.connect_to sp (.rigid oj) op (some p) none).err = none ∧
      (s.connect_to sp (.rigid oj) op (some p) none).otherParent =
        sp.comp (Loc.translation (s.relative_axis.position.add
          (Vec3.smul p s.relative_axis.direction)))) ∧
    ((s.connect_to sp (.revolute rj) op (some p) (some a)).err = none ∧
      (s.connect_to sp (.revolute rj) op (some p) (some a)).otherParent =
        sp.comp ((Loc.translation (s.relative_axis.position.add
          (Vec3.smul p s.relative_axis.direction))).comp
          (planeLoc Vec3.zero
            (rj.angle_reference.rotate rj.relative_axis.direction a)
            rj.relative_axis.direction))) := by
  refine ⟨⟨?_, ?_⟩, ?_, ?_⟩
  · simp [LinearJointRec.connect_to, hp]
  · simp [LinearJointRec.connect_to, hp, Loc.comp_one]
  · simp [LinearJointRec.connect_to, hp, ha]
  · simp [LinearJointRec.connect_to, hp, ha]

/-- C5 amended witness: the sample slider at position 5 with a rigid partner,
and with the sample revolute partner at angle 90. -/
theorem C5_amended_linear_connect_placement_witness :
    (sampleLin.range.1 ≤ 5 ∧ (5:ℝ) ≤ sampleLin.range.2) ∧
    (sampleRev.range.1 ≤ 90 ∧ (90:ℝ) ≤ sampleRev.range.2) ∧
    (sampleLin.connect_to Loc.one (.rigid sampleRigid) Loc.one
      (some 5) none).otherParent =
      Loc.one.comp (Loc.translation (sampleLin.relative_axis.position.add
        (Vec3.smul 5 sampleLin.relative_axis.direction))) :=
  ⟨by norm_num [sampleLin], by norm_num [sampleRev],
    ((C5_amended_linear_connect_placement sampleLin sampleRigid sampleRev
      Loc.one Loc.one 5 90 (by norm_num [sampleLin])
      (by norm_num [sampleRev])).1).2⟩

/-- C6: for a ball connect with a rigid partner, omitted angles resolve to the
three range minimums inside the built rotation (`Rotation` of the minimums
composed with the reference frame); the validation is of the decomposed
orientation of that rotation — when some component is out of its range the
call raises `ValueError` and leaves the partner placement unchanged — and on
success the partner body's placement becomes `self.body.placement ∘
self.relative_frame ∘ rotation ∘ invert(other.relative_frame)`. -/
theorem C6_ball_connect (s : BallJointRec) (oj : RigidJointRec) (sp op : Loc)
    (an : Option (ℝ × ℝ × ℝ)) :
    s.rotationOf none =
      (Rotation3 s.angle_range.1.1 s.angle_range.2.1.1 s.angle_range.2.2.1).comp
        s.angle_reference.to_location ∧
    ((s.angle_range.1.1 ≤ (s.rotationOf an).orientation.x ∧
        (s.rotationOf an).orientation.x ≤ s.angle_range.1.2 ∧
        s.angle_range.2.1.1 ≤ (s.rotationOf an).orientation.y ∧
        (s.rotationOf an).orientation.y ≤ s.angle_range.2.1.2 ∧
        s.angle_range.2.2.1 ≤ (s.rotationOf an).orientation.z ∧
        (s.rotationOf an).orientation.z ≤ s.angle_range.2.2.2) →
      (s.connect_to sp (.rigid oj) op an).err = none ∧
      (s.connect_to sp (.rigid oj) op an).otherParent =
        ((sp.comp s.relative_location).comp (s.rotationOf an)).comp
          oj.relative_location.inverse) ∧
    (¬(s.angle_range.1.1 ≤ (s.rotationOf an).orientation.x ∧
        (s.rotationOf an).orientation.x ≤ s.angle_range.1.2 ∧
        s.angle_range.2.1.1 ≤ (s.rotationOf an).orientation.y ∧
        (s.rotationOf an).orientation.y ≤ s.angle_range.2.1.2 ∧
        s.angle_range.2.2.1 ≤ (s.rotationOf an).orientation.z ∧
        (s.rotationOf an).orientation.z ≤ s.angle_range.2.2.2) →
      (s.connect_to sp (.rigid oj) op an).err = some .valueError ∧
      (s.connect_to sp (.rigid oj) op an).otherParent = op) := by
  refine ⟨rfl, fun h => ?_, fun h => ?_⟩
  · simp [BallJointRec.connect_to, h]
  · simp [BallJointRec.connect_to, h]

/-- The sample ball joint's default rotation is the identity frame. -/
theorem sampleBall_rotationOf_none : sampleBall.rotationOf none = Loc.one := by
  norm_num [sampleBall, BallJointRec.rotationOf, Rotation3, rotX, rotY, rotZ,
    cosd, sind, Plane3.XY, Plane3.to_location, planeLoc, Loc.comp, Mat3.mul,
    Mat3.mulVec, Vec3.smul, Vec3.add, Vec3.cross, Vec3.zero, Mat3.one, Loc.one]

/-- The decomposed orientation of the identity frame is the zero vector. -/
theorem orientation_of_one : Loc.one.orientation = Vec3.zero := by
  norm_num [Loc.orientation, Loc.one, Mat3.one, atan2, Vec3.zero,
    Real.arctan_zero, Real.arcsin_zero]

/-- C6 witness: the sample ball joint with angles omitted resolves to the
(0, 0, 0) minimums, passes the decomposed-orientation validation, and places
the rigid partner by the composition formula. -/
theorem C6_ball_connect_witness :
    (sampleBall.angle_range.1.1 ≤ (sampleBall.rotationOf none).orientation.x ∧
      (sampleBall.rotationOf none).orientation.x ≤ sampleBall.angle_range.1.2 ∧
      sampleBall.angle_range.2.1.1 ≤ (sampleBall.rotationOf none).orientation.y ∧
      (sampleBall.rotationOf none).orientation.y ≤ sampleBall.angle_range.2.1.2 ∧
      sampleBall.angle_range.2.2.1 ≤ (sampleBall.rotationOf none).orientation.z ∧
      (sampleBall.rotationOf none).orientation.z ≤ sampleBall.angle_range.2.2.2) ∧
    (sampleBall.connect_to Loc.one (.rigid sampleRigid) Loc.one none).err = none ∧
    (sampleBall.connect_to Loc.one (.rigid sampleRigid) Loc.one none).otherParent =
      ((Loc.one.comp sampleBall.relative_location).comp
        (sampleBall.rotationOf none)).comp sampleRigid.relative_location.inverse := by
  have h0 : (sampleBall.rotationOf none).orientation = Vec3.zero := by
    rw [sampleBall_rotationOf_none, orientation_of_one]
  have hc : sampleBall.angle_range.1.1 ≤ (sampleBall.rotationOf none).orientation.x ∧
      (sampleBall.rotationOf none).orientation.x ≤ sampleBall.angle_range.1.2 ∧
      sampleBall.angle_range.2.1.1 ≤ (sampleBall.rotationOf none).orientation.y ∧
      (sampleBall.rotationOf none).orientation.y ≤ sampleBall.angle_range.2.1.2 ∧
      sampleBall.angle_range.2.2.1 ≤ (sampleBall.rotationOf none).orientation.z ∧
      (sampleBall.rotationOf none).orientation.z ≤ sampleBall.angle_range.2.2.2 := by
    rw [h0]
    norm_num [sampleBall, Vec3.zero]
  exact ⟨hc, (C6_ball_connect sampleBall sampleRigid Loc.one Loc.one none).2.1 hc⟩

/-- C7: the claim is what the constructors document, and `RevoluteJoint`
satisfies it — a normal supplied reference is accepted and stored, a
non-normal one raises `ValueError`, an omitted one is derived — but
`CylindricalJoint.__init__` reads `self.angle_reference` before assigning it,
so it raises `AttributeError` even for a supplied reference that IS normal to
the axis (third conjunct), where its own docstring promises success. -/
theorem C7_cylindrical_init_bug :
    RevoluteJoint.init 3 ⟨Vec3.zero, ⟨0, 0, 1⟩⟩ (some ⟨1, 0, 0⟩) (0, 360) Loc.one =
      .ok ⟨3, (0, 360), ⟨1, 0, 0⟩, none,
        Axis3.located ⟨Vec3.zero, ⟨0, 0, 1⟩⟩ Loc.one.inverse, none⟩ ∧
    RevoluteJoint.init 3 ⟨Vec3.zero, ⟨0, 0, 1⟩⟩ (some ⟨0, 1, 1⟩) (0, 360) Loc.one =
      .error .valueError ∧
    Vec3.dot ⟨0, 0, 1⟩ ⟨1, 0, 0⟩ = 0 ∧
    CylindricalJoint.init 5 ⟨Vec3.zero, ⟨0, 0, 1⟩⟩ (some ⟨1, 0, 0⟩) (0, 10)
      (0, 360) Loc.one = .error .attributeError := by
  refine ⟨?_, ?_, ?_, rfl⟩
  · norm_num [RevoluteJoint.init, Vec3.dot]
  · norm_num [RevoluteJoint.init, Vec3.dot]
  · norm_num [Vec3.dot]

end B123D
